import Mathlib

/-!
Shallow embedding of the zyrotech-backend Express/Mongoose application,
covering the OTP lifecycle, authentication controllers, password reset,
phone update, bot subscriptions and the bot performance overview.

Conventions of the embedding:
* MongoDB collections are Lean lists of records in natural (insertion)
  order; `findOne` is `List.find?`, `deleteOne({_id})` removes the first
  record with that id.
* Timestamps are milliseconds since the epoch, modelled as `Int`
  (`Date.now()` values); `expiresAt: { $gt: new Date() }` becomes
  `now < expiresAt`.
* External dependencies (bcrypt comparison/hashing, SHA-256, the random
  OTP/token generators, JWT signing) are passed in as parameters: the
  repository treats them as opaque primitives, and none of the verified
  properties depend on their internals.
* A thrown `AppError` or Mongoose validation/duplicate-key error is an
  `Except.error`; the central `errorHandler` turns it into an HTTP
  status plus JSON body.
-/

namespace Zyro

/-- Milliseconds since the epoch, the value of `Date.now()`. -/
abbrev Time := Int

/-! ## OTP model (`src/models/OTP.ts`) -/

/-- The `type` field of an OTP document: `'email' | 'phone'`. -/
inductive OtpType where
  | email : OtpType
  | phone : OtpType
deriving DecidableEq, Repr

/-- An OTP document.  The schema stores the subject in the `email` field
for email OTPs and in the `phone` field for phone OTPs; `timestamps: true`
adds `createdAt`.  `id` stands for the Mongo `_id`. -/
structure OTPRecord where
  id : Nat
  email : Option String
  phone : Option String
  otp : String
  type : OtpType
  expiresAt : Time
  createdAt : Time
deriving DecidableEq, Repr

/-- The `...(type === 'email' ? { email: emailOrPhone } : { phone: emailOrPhone })`
spread used by `createOTP`, `verifyOTP` and `checkOTPCooldown`: the query
constrains the field matching the type. -/
def subjectMatches (r : OTPRecord) (t : OtpType) (emailOrPhone : String) : Bool :=
  match t with
  | OtpType.email => r.email == some emailOrPhone
  | OtpType.phone => r.phone == some emailOrPhone

/-- The OTP store: the `otps` collection in insertion order. -/
abbrev OtpStore := List OTPRecord

/-- `OTP.deleteOne({ _id: i })`: remove the first (in Mongo: the unique)
document with that id. -/
def deleteById : OtpStore → Nat → OtpStore
  | [], _ => []
  | r :: rs, i => if r.id = i then rs else r :: deleteById rs i

/-- `createOTP` (`src/utils/emailUtils.ts` lines 82–98): inserts a new OTP
document with `expiresAt = Date.now() + expiryMinutes*60*1000`.  The
randomly generated 6-digit code (`generateOTP`) is passed in as `otp`,
and `newId` stands for the fresh Mongo `_id`. -/
def createOTP (store : OtpStore) (emailOrPhone : String) (t : OtpType)
    (otp : String) (now : Time) (newId : Nat) (expiryMinutes : Int := 5) :
    OtpStore :=
  store ++ [{ id := newId
              email := if t = OtpType.email then some emailOrPhone else none
              phone := if t = OtpType.phone then some emailOrPhone else none
              otp := otp
              type := t
              expiresAt := now + expiryMinutes * 60 * 1000
              createdAt := now }]

/-- The `findOne` filter of `verifyOTP`: code, type and subject match and
`expiresAt: { $gt: new Date() }`. -/
def verifyMatch (emailOrPhone : String) (otp : String) (t : OtpType)
    (now : Time) (r : OTPRecord) : Bool :=
  r.otp == otp && r.type == t && subjectMatches r t emailOrPhone
    && now < r.expiresAt

/-- `verifyOTP` (`src/utils/emailUtils.ts` lines 100–119): find a live
matching OTP document; if none, return `false` and leave the store alone;
otherwise delete that document by `_id` and return `true`. -/
def verifyOTP (store : OtpStore) (emailOrPhone : String) (otp : String)
    (t : OtpType) (now : Time) : Bool × OtpStore :=
  match store.find? (verifyMatch emailOrPhone otp t now) with
  | none => (false, store)
  | some r => (true, deleteById store r.id)

/-- `checkOTPCooldown` (`src/utils/emailUtils.ts` lines 121–133): is there
any OTP document of this type for this subject with
`createdAt: { $gt: new Date(Date.now() - cooldownSeconds*1000) }`? -/
def checkOTPCooldown (store : OtpStore) (emailOrPhone : String) (t : OtpType)
    (now : Time) (cooldownSeconds : Int := 60) : Bool :=
  (store.find? (fun r =>
    r.type == t && subjectMatches r t emailOrPhone
      && now - cooldownSeconds * 1000 < r.createdAt)).isSome

/-! ## JSON bodies, errors and the central error handler
(`src/middleware/errorHandler.ts`) -/

/-- A JSON value, used for response bodies. -/
inductive Json where
  | null : Json
  | str : String → Json
  | num : ℚ → Json
  | jbool : Bool → Json
  | arr : List Json → Json
  | obj : List (String × Json) → Json
deriving Repr

/-- Look a field up in a JSON object body (`none` when absent or when the
value is not an object). -/
def Json.getField : Json → String → Option Json
  | Json.obj fields, k => (fields.find? (fun p => p.1 == k)).map (fun p => p.2)
  | _, _ => none

/-- `AppError` (`errorHandler.ts` lines 11–29).  Its constructor takes only
`message` and `statusCode`; `status` is derived, and there is no `code`
field at all. -/
structure AppError where
  message : String
  statusCode : Nat
deriving DecidableEq, Repr

/-- The `status` computed by the `AppError` constructor:
`` `${statusCode}`.startsWith('4') ? 'fail' : 'error' ``.  Since `'4'` is
a single character, starting with it is having it as first character. -/
def AppError.status (e : AppError) : String :=
  if (Nat.repr e.statusCode).toList.headD ' ' = '4' then "fail" else "error"

/-- Anything a handler can throw: an `AppError`, or any other `Error`
(Mongoose validation failures, duplicate-key errors, bcrypt errors). -/
inductive Thrown where
  | app : AppError → Thrown
  | other : String → Thrown
deriving DecidableEq, Repr

/-- `new AppError(message, statusCode, code)` as the controllers call it:
the 2-parameter constructor (`errorHandler.ts` lines 21–28) binds
`message` and `statusCode` and silently ignores the extra `code`
argument, so the error object carries no code.  Calls that pass only two
arguments (profileController) use the default. -/
def appError (message : String) (statusCode : Nat) (_code : String := "") :
    Thrown :=
  Thrown.app { message := message, statusCode := statusCode }

/-- `errorHandler` (`errorHandler.ts` lines 39–59): an `AppError` becomes
`res.status(err.statusCode).json({ status, message })`; anything else
becomes a 500 with a generic body.  Neither branch emits a `code`
field. -/
def errorHandler (err : Thrown) : Nat × Json :=
  match err with
  | Thrown.app e =>
      (e.statusCode, Json.obj [("status", Json.str e.status),
                               ("message", Json.str e.message)])
  | Thrown.other _ =>
      (500, Json.obj [("status", Json.str "error"),
                      ("message", Json.str "Something went wrong!")])

/-- A handler outcome routed through `next(error)` when it throws: the
final HTTP status and JSON body sent to the client. -/
def handle (r : Except Thrown (Nat × Json)) : Nat × Json :=
  match r with
  | Except.ok out => out
  | Except.error err => errorHandler err

/-- JS falsiness of an optional string request field (`!email` is true for
a missing field and for the empty string). -/
def falsy : Option String → Bool
  | none => true
  | some s => s == ""

/-! ## User model (`src/models/User.ts`) -/

/-- A `User` document.  `password`, `hashedPin`, `resetPasswordToken` and
`resetPasswordExpires` are `select: false` but that only affects default
projections, not the data.  `password` holds the bcrypt hash produced by
the pre-save hook. -/
structure UserRec where
  id : Nat
  fullName : String
  email : String
  phoneNumber : Option String
  password : Option String
  googleId : Option String
  hashedPin : Option String
  resetPasswordToken : Option String
  resetPasswordExpires : Option Time
  isEmailVerified : Bool
  isPhoneVerified : Bool
deriving DecidableEq, Repr

/-- The `users` collection in insertion order. -/
abbrev UserStore := List UserRec

/-- Strip leading and trailing whitespace from a character list (the
semantics of the `trim: true` schema setter). -/
def trimChars (l : List Char) : List Char :=
  ((l.dropWhile Char.isWhitespace).reverse.dropWhile Char.isWhitespace).reverse

/-- The `trim: true` schema setter. -/
def strTrim (s : String) : String :=
  String.mk (trimChars s.toList)

/-- The email schema setters `lowercase: true, trim: true`, applied by
Mongoose both when saving and when casting query filters, so lookups and
stored values agree on this normal form. -/
def emailSetter (s : String) : String :=
  String.mk ((trimChars s.toList).map Char.toLower)

/-- The schema's email validator `/^\S+@\S+\.\S+$/`: the string is a
nonempty run of non-whitespace, an `@`, a nonempty run, a `.`, and a
final nonempty run. -/
def emailRegexMatch (s : String) : Bool :=
  let l := s.toList
  l.all (fun c => !c.isWhitespace) &&
  (List.range l.length).any (fun i =>
    1 ≤ i && l.getD i ' ' == '@' &&
    (List.range l.length).any (fun j =>
      i + 2 ≤ j && j + 2 ≤ l.length && l.getD j ' ' == '.'))

/-- The schema's phone validator `/^\+?[1-9]\d{1,14}$/`. -/
def phoneRegexMatch (s : String) : Bool :=
  let l := s.toList
  let l' := match l with
    | '+' :: rest => rest
    | _ => l
  match l' with
  | [] => false
  | c :: rest =>
      ('1' ≤ c && c ≤ '9') && rest.all Char.isDigit
        && 1 ≤ rest.length && rest.length ≤ 14

/-- `User.create` validation relevant to signup: `fullName` required with
trimmed length in [2, 50], `email` required and matching the email
pattern (after the lowercase/trim setters), `password` at least 8
characters when present. -/
def signupValidate (fullName email password : String) : Bool :=
  let fn := strTrim fullName
  2 ≤ fn.length && fn.length ≤ 50
    && emailRegexMatch (emailSetter email)
    && 8 ≤ password.length

/-! ## Auth controller (`src/controllers/authController.ts`) -/

/-- `signup` (`authController.ts` lines 29–66).  `bcryptHash` is the
pre-save bcrypt hashing hook, `newId` the fresh `_id`.  Returns the
handler outcome and the updated `users` collection. -/
def signup (users : UserStore) (bcryptHash : String → String)
    (fullName email password : Option String) (newId : Nat) :
    Except Thrown (Nat × Json) × UserStore :=
  if falsy fullName || falsy email || falsy password then
    (Except.error (appError "Please provide all required fields" 400
      "missing-required-fields"), users)
  else
    let em := emailSetter (email.getD "")
    match users.find? (fun u => u.email == em) with
    | some _ =>
        (Except.error (appError "User already exists" 409
          "email-already-exists"), users)
    | none =>
        if signupValidate (fullName.getD "") (email.getD "")
            (password.getD "") then
          let u : UserRec :=
            { id := newId
              fullName := strTrim (fullName.getD "")
              email := em
              phoneNumber := none
              password := some (bcryptHash (password.getD ""))
              googleId := none
              hashedPin := none
              resetPasswordToken := none
              resetPasswordExpires := none
              isEmailVerified := false
              isPhoneVerified := false }
          (Except.ok (201, Json.obj
            [("message", Json.str "Account created. Please verify your email."),
             ("userId", Json.num newId)]), users ++ [u])
        else
          (Except.error (Thrown.other "User validation failed"), users)

/-- `login` (`authController.ts` lines 162–238).  `bcryptCompare` is
`bcrypt.compare(candidate, storedHash)`; `jwtSign` is
`jwt.sign({ id }, secret)`.  The store is read-only here. -/
def login (users : UserStore) (bcryptCompare : String → String → Bool)
    (jwtSign : Nat → String) (email password : Option String) :
    Except Thrown (Nat × Json) :=
  if falsy email || falsy password then
    Except.error (appError "Please provide email and password" 400
      "missing-credentials")
  else
    match users.find? (fun u => u.email == emailSetter (email.getD "")) with
    | none =>
        Except.error (appError "Invalid email or password" 401
          "invalid-credentials")
    | some user =>
        if user.googleId.isSome && user.password.isNone then
          Except.error (appError
            "This account was created using Google. Please sign in with Google."
            401 "google-auth-required")
        else
          match user.password with
          | none => Except.error (Thrown.other
              "bcrypt: data and hash arguments required")
          | some h =>
              if !bcryptCompare (password.getD "") h then
                Except.error (appError "Invalid email or password" 401
                  "invalid-credentials")
              else if !user.isEmailVerified then
                Except.error (appError
                  "Please verify your email before logging in" 403
                  "email-not-verified")
              else
                Except.ok (200, Json.obj
                  ([("message", Json.str "Login successful"),
                    ("token", Json.str (jwtSign user.id)),
                    ("user", Json.obj
                      ([("id", Json.num user.id),
                        ("fullName", Json.str user.fullName),
                        ("email", Json.str user.email),
                        ("phoneNumber", match user.phoneNumber with
                          | some p => Json.str p
                          | none => Json.null),
                        ("isEmailVerified", Json.jbool user.isEmailVerified)]
                       ++ (match user.phoneNumber with
                          | some _ =>
                              [("isPhoneVerified",
                                Json.jbool user.isPhoneVerified)]
                          | none => [])))]))

/-- `sendEmailOTP` (`authController.ts` lines 76–126).  `genOtp` is the
random 6-digit code `generateOTP()` produced inside `createOTP`, `newId`
the fresh `_id`, `now` the request time.  Returns the outcome and the
updated OTP store (the user store is read-only here). -/
def sendEmailOTP (users : UserStore) (otps : OtpStore)
    (email : Option String) (genOtp : String) (now : Time) (newId : Nat) :
    Except Thrown (Nat × Json) × OtpStore :=
  if falsy email then
    (Except.error (appError "Email is required" 400 "missing-email"), otps)
  else
    let em := emailSetter (email.getD "")
    match users.find? (fun u => u.email == em) with
    | none =>
        (Except.error (appError "User not found. Please sign up first." 404
          "user-not-found"), otps)
    | some user =>
        if user.isEmailVerified then
          (Except.error (appError "Email is already verified" 400
            "email-already-verified"), otps)
        else if checkOTPCooldown otps em OtpType.email now then
          (Except.error (appError "Please wait before requesting another OTP"
            429 "otp-cooldown"), otps)
        else
          (Except.ok (200, Json.obj
            [("message", Json.str "OTP sent successfully")]),
           createOTP otps em OtpType.email genOtp now newId)

/-- `findOneAndUpdate` / `save` on a single document: rewrite the first
record satisfying the filter, leave the rest untouched. -/
def updateFirst {α : Type} (p : α → Bool) (f : α → α) : List α → List α
  | [] => []
  | u :: us => if p u then f u :: us else u :: updateFirst p f us

/-- `verifyEmailOTP` (`authController.ts` lines 136–156): delegates to
`verifyOTP` and, on success, flips `isEmailVerified` for the user found
by email.  Returns the outcome, the updated user store and the updated
OTP store. -/
def verifyEmailOTP (users : UserStore) (otps : OtpStore)
    (email otp : String) (now : Time) :
    Except Thrown (Nat × Json) × UserStore × OtpStore :=
  match verifyOTP otps email otp OtpType.email now with
  | (false, otps') =>
      (Except.error (appError "Invalid or expired OTP" 400 "invalid-otp"),
       users, otps')
  | (true, otps') =>
      (Except.ok (200, Json.obj
        [("message", Json.str "Email verified successfully")]),
       updateFirst (fun u => u.email == emailSetter email)
         (fun u => { u with isEmailVerified := true }) users,
       otps')

/-! ## Password reset (`authController.ts` lines 377–528) -/

/-- The `findOne` filter shared by `resetPassword` and
`validateResetToken`: the stored `resetPasswordToken` equals the given
hash and `resetPasswordExpires: { $gt: Date.now() }` (the field exists
and is strictly in the future). -/
def resetTokenMatch (hashedToken : String) (now : Time) (u : UserRec) :
    Bool :=
  u.resetPasswordToken == some hashedToken
    && (match u.resetPasswordExpires with
        | some e => now < e
        | none => false)

/-- The success update of `forgotPassword`: store the hashed token and a
30-minute expiry on the user document. -/
def setResetFields (hashedToken : String) (t0 : Time) (v : UserRec) :
    UserRec :=
  { v with resetPasswordToken := some hashedToken
           resetPasswordExpires := some (t0 + 30 * 60 * 1000) }

/-- The success update of `resetPassword`: set the new password (which
the pre-save hook bcrypt-hashes) and clear both reset fields. -/
def applyReset (bh : String → String) (np : String) (v : UserRec) :
    UserRec :=
  { v with password := some (bh np)
           resetPasswordToken := none
           resetPasswordExpires := none }

/-- `forgotPassword` (`authController.ts` lines 377–427).  `sha256` is
`crypto.createHash("sha256")...digest("hex")` and `resetToken` the
32-byte random token from `crypto.randomBytes`.  When the user exists,
store the hash and a 30-minute expiry; either way answer with the
non-revealing message. -/
def forgotPassword (users : UserStore) (sha256 : String → String)
    (email : Option String) (resetToken : String) (now : Time) :
    Except Thrown (Nat × Json) × UserStore :=
  if falsy email then
    (Except.error (appError "Email is required" 400 "missing-email"), users)
  else
    let em := emailSetter (email.getD "")
    let body := Json.obj [("message", Json.str
      "If an account with that email exists, a reset link has been sent.")]
    match users.find? (fun u => u.email == em) with
    | none => (Except.ok (200, body), users)
    | some _ =>
        (Except.ok (200, body),
         updateFirst (fun u => u.email == em)
           (setResetFields (sha256 resetToken) now) users)

/-- `resetPassword` (`authController.ts` lines 433–489): input checks,
then look a user up by hashed token with unexpired
`resetPasswordExpires`; on success set the new password (bcrypt-hashed
by the pre-save hook) and clear both reset fields. -/
def resetPassword (users : UserStore) (sha256 : String → String)
    (bcryptHash : String → String)
    (token newPassword confirmPassword : Option String) (now : Time) :
    Except Thrown (Nat × Json) × UserStore :=
  if falsy token || falsy newPassword || falsy confirmPassword then
    (Except.error (appError
      "Token, new password, and confirm password are required" 400
      "missing-reset-fields"), users)
  else if newPassword ≠ confirmPassword then
    (Except.error (appError "Passwords do not match" 400
      "passwords-dont-match"), users)
  else if (newPassword.getD "").length < 8 then
    (Except.error (appError "Password must be at least 8 characters long" 400
      "password-too-short"), users)
  else
    let hashedToken := sha256 (token.getD "")
    match users.find? (resetTokenMatch hashedToken now) with
    | none =>
        (Except.error (appError "Invalid or expired reset token" 400
          "invalid-reset-token"), users)
    | some _ =>
        (Except.ok (200, Json.obj
          [("message", Json.str "Password has been reset successfully")]),
         updateFirst (resetTokenMatch hashedToken now)
           (applyReset bcryptHash (newPassword.getD "")) users)

/-- `validateResetToken` (`authController.ts` lines 495–528): the same
lookup as `resetPassword`, with no state change. -/
def validateResetToken (users : UserStore) (sha256 : String → String)
    (token : Option String) (now : Time) : Except Thrown (Nat × Json) :=
  if falsy token then
    Except.error (appError "Token is required" 400 "missing-token")
  else
    match users.find? (resetTokenMatch (sha256 (token.getD "")) now) with
    | none =>
        Except.error (appError "Invalid or expired reset token" 400
          "invalid-reset-token")
    | some _ =>
        Except.ok (200, Json.obj [("message", Json.str "Token is valid")])

/-! ## Profile controller (`src/controllers/profileController.ts`) -/

/-- `updatePhoneAndSendOTP` (`profileController.ts` lines 12–58).  All
`AppError`s here are built with two arguments, so no code is even
passed.  The cooldown check runs before the same-number check.  Saving a
changed number runs the schema's phone validator and the unique sparse
index, either of which throws a non-`AppError` error.  `genOtp` is the
random code generated inside `createOTP` and `newOtpId` the fresh OTP
`_id`. -/
def updatePhoneAndSendOTP (users : UserStore) (otps : OtpStore)
    (userId : Nat) (phoneNumber : Option String) (genOtp : String)
    (now : Time) (newOtpId : Nat) :
    Except Thrown (Nat × Json) × UserStore × OtpStore :=
  if falsy phoneNumber then
    (Except.error (appError "Phone number is required" 400), users, otps)
  else
    let pn := phoneNumber.getD ""
    match users.find? (fun u => u.id == userId) with
    | none =>
        (Except.error (appError "User not found" 404), users, otps)
    | some user =>
        if checkOTPCooldown otps pn OtpType.phone now then
          (Except.error (appError "Please wait before requesting another OTP"
            429), users, otps)
        else if user.phoneNumber ≠ some pn then
          if !phoneRegexMatch (strTrim pn) then
            (Except.error (Thrown.other "User validation failed"), users,
             otps)
          else if (users.find? (fun v =>
              v.id ≠ userId && v.phoneNumber == some (strTrim pn))).isSome then
            (Except.error (Thrown.other "E11000 duplicate key error"), users,
             otps)
          else
            (Except.ok (200, Json.obj
              [("message", Json.str "OTP sent successfully"),
               ("otp", Json.str genOtp)]),
             updateFirst (fun u => u.id == userId)
               (fun u => { u with
                 phoneNumber := some (strTrim pn)
                 isPhoneVerified := false }) users,
             createOTP otps pn OtpType.phone genOtp now newOtpId)
        else
          (Except.error (appError "Phone number is already verified" 400),
           users, otps)

/-! ## Bot subscriptions (`src/models/BotSubscription.ts`,
`src/routes/subscriptionRoutes.ts`) -/

/-- The `status` field of a subscription: `'active' | 'cancelled'`. -/
inductive SubStatus where
  | active : SubStatus
  | cancelled : SubStatus
deriving DecidableEq, Repr

/-- A `BotSubscription` document.  The schema carries a unique compound
index on `(userId, botId)`. -/
structure Subscription where
  id : Nat
  userId : Nat
  botId : Nat
  status : SubStatus
  subscribedAt : Time
  cancelledAt : Option Time
deriving DecidableEq, Repr

/-- The `botsubscriptions` collection in insertion order. -/
abbrev SubStore := List Subscription

/-- The JSON `data` payload of a subscription response (the transformed
document with `_id` renamed to `id` and `__v` dropped). -/
def subscriptionJson (s : Subscription) : Json :=
  Json.obj [("id", Json.num s.id),
            ("userId", Json.num s.userId),
            ("botId", Json.num s.botId),
            ("status", Json.str (match s.status with
              | SubStatus.active => "active"
              | SubStatus.cancelled => "cancelled")),
            ("subscribedAt", Json.num s.subscribedAt),
            ("cancelledAt", match s.cancelledAt with
              | some t => Json.num t
              | none => Json.null)]

/-- `router.post("/")` of `subscriptionRoutes.ts` (lines 17–94), the
subscribe operation.  `bots` is the set of existing bot ids
(`Bot.findById`), `userId` the authenticated user, `newId` the fresh
`_id`.  An existing active subscription throws 409; a cancelled one is
reactivated in place; otherwise a new document is created. -/
def subscribeToBot (bots : List Nat) (subs : SubStore) (userId : Nat)
    (botId : Option Nat) (now : Time) (newId : Nat) :
    Except Thrown (Nat × Json) × SubStore :=
  match botId with
  | none =>
      (Except.error (appError "Bot ID is required" 400 "missing-bot-id"),
       subs)
  | some b =>
      if !bots.contains b then
        (Except.error (appError "Bot not found" 404 "bot-not-found"), subs)
      else
        match subs.find? (fun s => s.userId == userId && s.botId == b) with
        | some s =>
            if s.status = SubStatus.active then
              (Except.error (appError "You are already subscribed to this bot"
                409 "already-subscribed"), subs)
            else
              let s' : Subscription :=
                { s with status := SubStatus.active, cancelledAt := none }
              (Except.ok (200, Json.obj
                [("status", Json.str "success"),
                 ("message", Json.str "Subscription reactivated successfully"),
                 ("data", subscriptionJson s')]),
               updateFirst (fun t => t.id == s.id) (fun t =>
                 { t with status := SubStatus.active, cancelledAt := none })
                 subs)
        | none =>
            let s : Subscription :=
              { id := newId, userId := userId, botId := b
                status := SubStatus.active, subscribedAt := now
                cancelledAt := none }
            (Except.ok (201, Json.obj
              [("status", Json.str "success"),
               ("message", Json.str "Successfully subscribed to bot"),
               ("data", subscriptionJson s)]),
             subs ++ [s])

/-! ## Bot performance overview (`botRoutes.ts`,
`router.get("/:id/performance-overview")`) -/

/-- The part of a `Signal` document the performance overview reads:
which bot it belongs to, the optional `exitTime` and the optional
`profitLoss` (a JS number, embedded as `ℚ`). -/
structure SignalRec where
  botId : Nat
  exitTime : Option Time
  profitLoss : Option ℚ
deriving DecidableEq, Repr

/-- `Signal.find({ botId: id })`. -/
def signalsFor (store : List SignalRec) (botId : Nat) : List SignalRec :=
  store.filter (fun s => s.botId == botId)

/-- The filter for completed signals: `signal.exitTime &&
signal.profitLoss !== undefined` (a present `Date` is always truthy). -/
def completedSignals (signals : List SignalRec) : List SignalRec :=
  signals.filter (fun s => s.exitTime.isSome && s.profitLoss.isSome)

/-- `signal.profitLoss || 0` as used inside every reduce/filter. -/
def plOf (s : SignalRec) : ℚ :=
  s.profitLoss.getD 0

/-- Sum of `profitLoss` over the completed signals (`totalReturn`). -/
def totalReturnOf (signals : List SignalRec) : ℚ :=
  ((completedSignals signals).map plOf).sum

/-- The winning signals: completed signals with `profitLoss > 0`. -/
def winningSignals (signals : List SignalRec) : List SignalRec :=
  (completedSignals signals).filter (fun s => 0 < plOf s)

/-- The losing signals: completed signals with `profitLoss < 0`. -/
def losingSignals (signals : List SignalRec) : List SignalRec :=
  (completedSignals signals).filter (fun s => plOf s < 0)

/-- `totalWins`: sum of `profitLoss` over the winning signals. -/
def totalWinsOf (signals : List SignalRec) : ℚ :=
  ((winningSignals signals).map plOf).sum

/-- `totalLosses`: absolute value of the sum of `profitLoss` over the
losing signals. -/
def totalLossesOf (signals : List SignalRec) : ℚ :=
  |((losingSignals signals).map plOf).sum|

/-- `winRate`: percentage of completed signals that are winning, 0 when
there are no completed signals. -/
def winRateOf (signals : List SignalRec) : ℚ :=
  if 0 < (completedSignals signals).length then
    ((winningSignals signals).length : ℚ)
      / ((completedSignals signals).length : ℚ) * 100
  else 0

/-- `profitFactor = totalLosses > 0 ? totalWins / totalLosses : 0`. -/
def profitFactorOf (signals : List SignalRec) : ℚ :=
  if 0 < totalLossesOf signals then
    totalWinsOf signals / totalLossesOf signals
  else 0

/-- `Math.round(x * 100) / 100`: JS `Math.round` rounds half toward
positive infinity, exactly Mathlib's `round`. -/
def round2 (q : ℚ) : ℚ :=
  (round (q * 100) : ℚ) / 100

/-- The performance-overview route handler: 404 for a missing bot,
otherwise the envelope with the four rounded metrics computed from the
bot's signals. -/
def performanceOverview (bots : List Nat) (sigStore : List SignalRec)
    (id : Nat) : Except Thrown (Nat × Json) :=
  if !bots.contains id then
    Except.error (appError "Bot not found" 404 "bot-not-found")
  else
    let signals := signalsFor sigStore id
    Except.ok (200, Json.obj
      [("status", Json.str "success"),
       ("data", Json.obj
         [("totalTrades", Json.num ((completedSignals signals).length : ℚ)),
          ("totalReturn", Json.num (round2 (totalReturnOf signals))),
          ("winRate", Json.num (round2 (winRateOf signals))),
          ("profitFactor", Json.num (round2 (profitFactorOf signals)))])])

/-! ## Helper lemmas -/

/-- A nonempty list of negative rationals has negative sum. -/
lemma sum_neg_of_all_neg (l : List ℚ) (h : ∀ x ∈ l, x < 0) (hne : l ≠ []) :
    l.sum < 0 := by
  induction l with
  | nil => exact absurd rfl hne
  | cons a t ih =>
      simp only [List.sum_cons]
      have ha : a < 0 := h a (by simp)
      rcases eq_or_ne t [] with ht | ht
      · simp [ht, ha]
      · have := ih (fun x hx => h x (by simp [hx])) ht
        linarith

/-- Members of `losingSignals` have negative `profitLoss`. -/
lemma losing_mem_neg (signals : List SignalRec) (s : SignalRec)
    (hs : s ∈ losingSignals signals) : plOf s < 0 := by
  have := List.of_mem_filter hs
  exact of_decide_eq_true this

/-- `totalLossesOf` is zero exactly when there is no losing signal. -/
lemma totalLosses_eq_zero_iff (signals : List SignalRec) :
    totalLossesOf signals = 0 ↔ losingSignals signals = [] := by
  unfold totalLossesOf
  constructor
  · intro h
    by_contra hne
    have hneg : ((losingSignals signals).map plOf).sum < 0 := by
      apply sum_neg_of_all_neg
      · intro x hx
        rcases List.mem_map.1 hx with ⟨s, hs, rfl⟩
        exact losing_mem_neg signals s hs
      · simpa using hne
    rw [abs_eq_zero] at h
    exact absurd h (ne_of_lt hneg)
  · intro h
    simp [h]

/-- `totalLossesOf` is positive exactly when some completed signal has
negative `profitLoss`. -/
lemma totalLosses_pos_iff (signals : List SignalRec) :
    0 < totalLossesOf signals ↔
      ∃ s ∈ completedSignals signals, plOf s < 0 := by
  have habs : 0 ≤ totalLossesOf signals := abs_nonneg _
  constructor
  · intro h
    have hne : losingSignals signals ≠ [] := by
      intro hnil
      have hz := (totalLosses_eq_zero_iff signals).2 hnil
      linarith
    rcases List.exists_mem_of_ne_nil _ hne with ⟨s, hs⟩
    exact ⟨s, List.mem_of_mem_filter hs, losing_mem_neg signals s hs⟩
  · rintro ⟨s, hs, hneg⟩
    have hne : losingSignals signals ≠ [] := by
      intro hnil
      have : s ∈ losingSignals signals := by
        unfold losingSignals
        exact List.mem_filter.2 ⟨hs, decide_eq_true hneg⟩
      simp [hnil] at this
    rcases lt_or_eq_of_le habs with h | h
    · exact h
    · exact absurd ((totalLosses_eq_zero_iff signals).1 h.symm) hne

/-- C9: in the bot performance overview, the reported profitFactor is 0
whenever the bot has no completed losing signals (even when winning
signals with positive total profit exist), and it equals
totalWins/totalLosses exactly when at least one completed signal has
negative profitLoss. -/
theorem C9_profitFactor_zero_without_losses (sigStore : List SignalRec)
    (id : Nat) :
    (losingSignals (signalsFor sigStore id) = [] →
      round2 (profitFactorOf (signalsFor sigStore id)) = 0) ∧
    (0 < totalLossesOf (signalsFor sigStore id) ↔
      ∃ s ∈ completedSignals (signalsFor sigStore id), plOf s < 0) ∧
    (losingSignals (signalsFor sigStore id) ≠ [] →
      profitFactorOf (signalsFor sigStore id)
        = totalWinsOf (signalsFor sigStore id)
            / totalLossesOf (signalsFor sigStore id)) := by
  set sg := signalsFor sigStore id
  refine ⟨?_, totalLosses_pos_iff sg, ?_⟩
  · intro h
    have hz : totalLossesOf sg = 0 := (totalLosses_eq_zero_iff sg).2 h
    unfold profitFactorOf
    rw [hz]
    norm_num [round2]
  · intro hne
    have hz : totalLossesOf sg ≠ 0 :=
      fun h => hne ((totalLosses_eq_zero_iff sg).1 h)
    have hpos : 0 < totalLossesOf sg :=
      lt_of_le_of_ne (abs_nonneg _) (Ne.symm hz)
    unfold profitFactorOf
    rw [if_pos hpos]

/-- Witness for C9: a bot whose completed signals are two wins (total
profit 12) reports profitFactor 0, and a bot with one win and one loss
reports the win/loss quotient. -/
theorem C9_witness :
    round2 (profitFactorOf
      (signalsFor [⟨1, some 10, some 5⟩, ⟨1, some 11, some 7⟩] 1)) = 0 ∧
    totalWinsOf (signalsFor [⟨1, some 10, some 5⟩, ⟨1, some 11, some 7⟩] 1)
      = 12 ∧
    profitFactorOf (signalsFor [⟨1, some 20, some 9⟩, ⟨1, some 30, some (-3)⟩] 1)
      = totalWinsOf (signalsFor [⟨1, some 20, some 9⟩, ⟨1, some 30, some (-3)⟩] 1)
        / totalLossesOf
            (signalsFor [⟨1, some 20, some 9⟩, ⟨1, some 30, some (-3)⟩] 1) := by
  refine ⟨(C9_profitFactor_zero_without_losses
      [⟨1, some 10, some 5⟩, ⟨1, some 11, some 7⟩] 1).1 (by decide), ?_,
    (C9_profitFactor_zero_without_losses
      [⟨1, some 20, some 9⟩, ⟨1, some 30, some (-3)⟩] 1).2.2 (by decide)⟩
  norm_num [totalWinsOf, winningSignals, completedSignals, plOf, signalsFor]

/-- Unfolding of the `verifyOTP` lookup filter. -/
lemma verifyMatch_iff (emailOrPhone otp : String) (t : OtpType) (now : Time)
    (r : OTPRecord) :
    verifyMatch emailOrPhone otp t now r = true ↔
      r.otp = otp ∧ r.type = t ∧ subjectMatches r t emailOrPhone = true ∧
        now < r.expiresAt := by
  simp [verifyMatch, and_assoc]

/-- A record that matches at a later time also matches at any earlier
time: only the expiry conjunct depends on the clock. -/
lemma verifyMatch_mono (emailOrPhone otp : String) (t : OtpType)
    (now now' : Time) (r : OTPRecord) (hle : now ≤ now')
    (h : verifyMatch emailOrPhone otp t now' r = true) :
    verifyMatch emailOrPhone otp t now r = true := by
  rw [verifyMatch_iff] at h ⊢
  exact ⟨h.1, h.2.1, h.2.2.1, lt_of_le_of_lt hle h.2.2.2⟩

/-- `deleteById` only removes records. -/
lemma mem_of_mem_deleteById (l : OtpStore) (i : Nat) (x : OTPRecord)
    (hx : x ∈ deleteById l i) : x ∈ l := by
  induction l with
  | nil => simp [deleteById] at hx
  | cons a t ih =>
      by_cases h : a.id = i
      · simp only [deleteById, if_pos h] at hx
        exact List.mem_cons_of_mem a hx
      · simp only [deleteById, if_neg h, List.mem_cons] at hx
        rcases hx with rfl | hx
        · exact List.mem_cons_self x t
        · exact List.mem_cons_of_mem a (ih hx)

/-- With Mongo's unique `_id`s, deleting by id really removes the record
carrying that id. -/
lemma not_mem_deleteById (l : OtpStore) (r : OTPRecord)
    (hids : (l.map OTPRecord.id).Nodup) (hr : r ∈ l) :
    r ∉ deleteById l r.id := by
  induction l with
  | nil => simp [deleteById]
  | cons a t ih =>
      simp only [List.map_cons, List.nodup_cons, List.mem_map] at hids
      by_cases h : a.id = r.id
      · simp only [deleteById, if_pos h]
        intro hmem
        rcases List.mem_cons.1 hr with rfl | hrt
        · exact hids.1 ⟨r, hmem, rfl⟩
        · exact hids.1 ⟨r, hrt, h.symm⟩
      · simp only [deleteById, if_neg h, List.mem_cons]
        rcases List.mem_cons.1 hr with rfl | hrt
        · exact absurd rfl h
        · rintro (rfl | hmem)
          · exact absurd rfl h
          · exact ih hids.2 hrt hmem

/-- C2: verifyOTP returns true iff a stored OTP record matches code, type
and subject with expiresAt strictly in the future; on success the found
record is deleted, so (when it was the unique match) a second
verification of the same code returns false; on failure it deletes
nothing. -/
theorem C2_verifyOTP_consumes (store : OtpStore) (emailOrPhone otp : String)
    (t : OtpType) (now now' : Time)
    (hids : (store.map OTPRecord.id).Nodup) (hnow : now ≤ now') :
    ((verifyOTP store emailOrPhone otp t now).1 = true ↔
      ∃ r ∈ store, r.otp = otp ∧ r.type = t ∧
        subjectMatches r t emailOrPhone = true ∧ now < r.expiresAt) ∧
    ((verifyOTP store emailOrPhone otp t now).1 = false →
      (verifyOTP store emailOrPhone otp t now).2 = store) ∧
    (∀ r, store.find? (verifyMatch emailOrPhone otp t now) = some r →
      (verifyOTP store emailOrPhone otp t now).2 = deleteById store r.id ∧
      ((∀ r' ∈ store, verifyMatch emailOrPhone otp t now r' = true → r' = r) →
        (verifyOTP (verifyOTP store emailOrPhone otp t now).2
          emailOrPhone otp t now').1 = false)) := by
  refine ⟨?_, ?_, ?_⟩
  · constructor
    · intro h
      cases hf : store.find? (verifyMatch emailOrPhone otp t now) with
      | none => simp [verifyOTP, hf] at h
      | some r =>
          exact ⟨r, List.mem_of_find?_eq_some hf,
            (verifyMatch_iff emailOrPhone otp t now r).1
              (List.find?_some hf)⟩
    · rintro ⟨r, hr, hprops⟩
      have hm : verifyMatch emailOrPhone otp t now r = true :=
        (verifyMatch_iff emailOrPhone otp t now r).2 hprops
      cases hf : store.find? (verifyMatch emailOrPhone otp t now) with
      | none =>
          have := List.find?_eq_none.1 hf r hr
          exact absurd hm this
      | some r' => simp [verifyOTP, hf]
  · intro h
    cases hf : store.find? (verifyMatch emailOrPhone otp t now) with
    | none => simp [verifyOTP, hf]
    | some r => simp [verifyOTP, hf] at h
  · intro r hf
    refine ⟨by simp [verifyOTP, hf], ?_⟩
    intro huniq
    have hstep : (verifyOTP store emailOrPhone otp t now).2
        = deleteById store r.id := by simp [verifyOTP, hf]
    rw [hstep]
    have hnone : (deleteById store r.id).find?
        (verifyMatch emailOrPhone otp t now') = none := by
      rw [List.find?_eq_none]
      intro x hx hmx
      have hx' : x ∈ store := mem_of_mem_deleteById store r.id x hx
      have hmx' : verifyMatch emailOrPhone otp t now x = true :=
        verifyMatch_mono emailOrPhone otp t now now' x hnow hmx
      have hxr : x = r := huniq x hx' hmx'
      subst hxr
      exact not_mem_deleteById store x hids hx' hx
    simp [verifyOTP, hnone]

/-- Witness for C2: one live OTP for a@b.c verifies at t=500, and the
same code fails immediately afterwards at t=600. -/
theorem C2_witness :
    (verifyOTP [⟨0, some "a@b.c", none, "123456", OtpType.email, 1000, 0⟩]
      "a@b.c" "123456" OtpType.email 500).1 = true ∧
    (verifyOTP (verifyOTP
        [⟨0, some "a@b.c", none, "123456", OtpType.email, 1000, 0⟩]
        "a@b.c" "123456" OtpType.email 500).2
      "a@b.c" "123456" OtpType.email 600).1 = false := by
  have h := C2_verifyOTP_consumes
    [⟨0, some "a@b.c", none, "123456", OtpType.email, 1000, 0⟩]
    "a@b.c" "123456" OtpType.email 500 600 (by decide) (by decide)
  exact ⟨h.1.2 ⟨⟨0, some "a@b.c", none, "123456", OtpType.email, 1000, 0⟩,
      by decide, by decide, by decide, by decide, by decide⟩,
    (h.2.2 ⟨0, some "a@b.c", none, "123456", OtpType.email, 1000, 0⟩
      (by decide)).2 (by decide)⟩

/-- C8: at-most-one-valid-OTP-in-flight is not enforced: createOTP only
inserts (every earlier record survives untouched), and after two
createOTP calls within the expiry window two distinct codes for the same
subject and type both verify successfully. -/
theorem C8_two_otps_in_flight (store : OtpStore) (emailOrPhone : String)
    (t : OtpType) (code : String) (now : Time) (newId : Nat) :
    (∀ r ∈ store, r ∈ createOTP store emailOrPhone t code now newId) ∧
    ((verifyOTP (createOTP (createOTP [] "a@b.c" OtpType.email "111111" 0 0)
        "a@b.c" OtpType.email "222222" 61000 1)
        "a@b.c" "111111" OtpType.email 70000).1 = true ∧
      (verifyOTP (verifyOTP
          (createOTP (createOTP [] "a@b.c" OtpType.email "111111" 0 0)
            "a@b.c" OtpType.email "222222" 61000 1)
          "a@b.c" "111111" OtpType.email 70000).2
        "a@b.c" "222222" OtpType.email 70000).1 = true) := by
  refine ⟨?_, by decide, by decide⟩
  intro r hr
  unfold createOTP
  exact List.mem_append_left _ hr

/-- Witness for C8: a pre-existing record survives a createOTP call. -/
theorem C8_witness :
    (⟨0, some "x@y.z", none, "999999", OtpType.email, 5, 0⟩ : OTPRecord) ∈
      createOTP [⟨0, some "x@y.z", none, "999999", OtpType.email, 5, 0⟩]
        "a@b.c" OtpType.email "111111" 7 1 :=
  (C8_two_otps_in_flight
    [⟨0, some "x@y.z", none, "999999", OtpType.email, 5, 0⟩]
    "a@b.c" OtpType.email "111111" 7 1).1
    ⟨0, some "x@y.z", none, "999999", OtpType.email, 5, 0⟩ (by decide)

/-- Unfolding of the email case of the subject filter. -/
lemma subjectMatches_email_iff (r : OTPRecord) (s : String) :
    subjectMatches r OtpType.email s = true ↔ r.email = some s := by
  simp [subjectMatches]

/-- Unfolding of the phone case of the subject filter. -/
lemma subjectMatches_phone_iff (r : OTPRecord) (s : String) :
    subjectMatches r OtpType.phone s = true ↔ r.phone = some s := by
  simp [subjectMatches]

/-- Unfolding of the cooldown query: a record of this type for this
subject created strictly within the last 60 seconds. -/
lemma checkOTPCooldown_iff (store : OtpStore) (subj : String) (t : OtpType)
    (now : Time) :
    checkOTPCooldown store subj t now = true ↔
      ∃ r ∈ store, r.type = t ∧ subjectMatches r t subj = true ∧
        now - 60 * 1000 < r.createdAt := by
  simp [checkOTPCooldown, List.find?_isSome, and_assoc]

/-- C4: sendEmailOTP refuses with 429 (and creates nothing) when an OTP
of the same type for the same subject was created within the last 60
seconds, and otherwise (for an existing unverified user) creates and
sends a fresh OTP. -/
theorem C4_sendEmailOTP_cooldown (users : UserStore) (otps : OtpStore)
    (em : String) (user : UserRec) (genOtp : String) (now : Time)
    (newId : Nat) (hem : em ≠ "")
    (hfind : users.find? (fun u => u.email == emailSetter em) = some user)
    (hver : user.isEmailVerified = false) :
    ((∃ r ∈ otps, r.type = OtpType.email ∧ r.email = some (emailSetter em) ∧
        now - 60 * 1000 < r.createdAt) →
      sendEmailOTP users otps (some em) genOtp now newId
        = (Except.error (appError "Please wait before requesting another OTP"
            429 "otp-cooldown"), otps)) ∧
    ((∀ r ∈ otps, ¬(r.type = OtpType.email ∧ r.email = some (emailSetter em) ∧
        now - 60 * 1000 < r.createdAt)) →
      sendEmailOTP users otps (some em) genOtp now newId
        = (Except.ok (200, Json.obj
            [("message", Json.str "OTP sent successfully")]),
          createOTP otps (emailSetter em) OtpType.email genOtp now newId)) := by
  have hfalsy : falsy (some em) = false := by simp [falsy, hem]
  constructor
  · rintro ⟨r, hr, h1, h2, h3⟩
    have hcool : checkOTPCooldown otps (emailSetter em) OtpType.email now
        = true :=
      (checkOTPCooldown_iff otps (emailSetter em) OtpType.email now).2
        ⟨r, hr, h1, (subjectMatches_email_iff r (emailSetter em)).2 h2, h3⟩
    simp [sendEmailOTP, hfalsy, hfind, hver, hcool]
  · intro hall
    have hcool : checkOTPCooldown otps (emailSetter em) OtpType.email now
        = false := by
      rw [Bool.eq_false_iff]
      intro h
      rcases (checkOTPCooldown_iff otps (emailSetter em) OtpType.email now).1 h
        with ⟨r, hr, h1, h2, h3⟩
      exact hall r hr
        ⟨h1, (subjectMatches_email_iff r (emailSetter em)).1 h2, h3⟩
    simp [sendEmailOTP, hfalsy, hfind, hver, hcool]

/-- Witness for C4: with an OTP created 1 second ago the request is
throttled; with an empty OTP store a fresh OTP record is created. -/
theorem C4_witness :
    sendEmailOTP [⟨1, "Jo", "a@b.c", none, none, none, none, none, none,
        false, false⟩]
      [⟨0, some "a@b.c", none, "111111", OtpType.email, 300000, 0⟩]
      (some "a@b.c") "222222" 1000 5
      = (Except.error (appError "Please wait before requesting another OTP"
          429 "otp-cooldown"),
         [⟨0, some "a@b.c", none, "111111", OtpType.email, 300000, 0⟩]) ∧
    sendEmailOTP [⟨1, "Jo", "a@b.c", none, none, none, none, none, none,
        false, false⟩]
      [] (some "a@b.c") "222222" 1000 5
      = (Except.ok (200, Json.obj
          [("message", Json.str "OTP sent successfully")]),
         createOTP [] "a@b.c" OtpType.email "222222" 1000 5) := by
  constructor
  · exact (C4_sendEmailOTP_cooldown
      [⟨1, "Jo", "a@b.c", none, none, none, none, none, none, false, false⟩]
      [⟨0, some "a@b.c", none, "111111", OtpType.email, 300000, 0⟩]
      "a@b.c" ⟨1, "Jo", "a@b.c", none, none, none, none, none, none, false,
        false⟩ "222222" 1000 5 (by decide) (by decide) (by decide)).1
      ⟨⟨0, some "a@b.c", none, "111111", OtpType.email, 300000, 0⟩,
        by decide, by decide, by decide, by decide⟩
  · exact (C4_sendEmailOTP_cooldown
      [⟨1, "Jo", "a@b.c", none, none, none, none, none, none, false, false⟩]
      [] "a@b.c" ⟨1, "Jo", "a@b.c", none, none, none, none, none, none,
        false, false⟩ "222222" 1000 5 (by decide) (by decide) (by decide)).2
      (by decide)

/-- C6 counterexample: with an empty user collection and all three
required fields present (`password = "short"`), signup does not respond
201 and creates no user: the Mongoose minlength validator rejects the
save and the error handler answers 500. -/
theorem C6_counterexample :
    (signup [] (fun s => s) (some "Jo") (some "a@b.c") (some "short") 1).2
      = [] ∧
    (handle (signup [] (fun s => s) (some "Jo") (some "a@b.c") (some "short")
      1).1).1 = 500 :=
  ⟨rfl, rfl⟩

/-- C6 (amended): signup with a duplicate email fails with 409 and
creates no user; with a fresh email, all required fields present and the
schema validation satisfied it creates the user and responds 201. -/
theorem C6_signup_duplicate_email (users : UserStore)
    (bh : String → String) (fullName email password : Option String)
    (newId : Nat) (hf : falsy fullName = false)
    (he : falsy email = false) (hp : falsy password = false) :
    ((∃ u ∈ users, u.email = emailSetter (email.getD "")) →
      signup users bh fullName email password newId
        = (Except.error (appError "User already exists" 409
            "email-already-exists"), users)) ∧
    ((∀ u ∈ users, u.email ≠ emailSetter (email.getD "")) →
      signupValidate (fullName.getD "") (email.getD "") (password.getD "")
        = true →
      signup users bh fullName email password newId
        = (Except.ok (201, Json.obj
            [("message",
              Json.str "Account created. Please verify your email."),
             ("userId", Json.num newId)]),
           users ++ [⟨newId, strTrim (fullName.getD ""),
             emailSetter (email.getD ""), none,
             some (bh (password.getD "")), none, none, none, none,
             false, false⟩])) := by
  constructor
  · rintro ⟨u, hu, hemail⟩
    have : users.find? (fun v => v.email == emailSetter (email.getD ""))
        |>.isSome := by
      rw [List.find?_isSome]
      exact ⟨u, hu, by simp [hemail]⟩
    rcases Option.isSome_iff_exists.1 this with ⟨u', hu'⟩
    simp [signup, hf, he, hp, hu']
  · intro hall hvalid
    have hnone : users.find? (fun v => v.email == emailSetter (email.getD ""))
        = none := by
      rw [List.find?_eq_none]
      intro v hv hbeq
      exact hall v hv (by simpa using hbeq)
    simp [signup, hf, he, hp, hnone, hvalid]

/-- Witness for C6: a duplicate of a@b.c is refused with the store
unchanged, and a fresh valid signup appends the new user. -/
theorem C6_witness :
    signup [⟨1, "Jo", "a@b.c", none, some "H", none, none, none, none, true,
        false⟩] (fun s => s) (some "Jo") (some "a@b.c") (some "longpassword")
        2
      = (Except.error (appError "User already exists" 409
          "email-already-exists"),
         [⟨1, "Jo", "a@b.c", none, some "H", none, none, none, none, true,
           false⟩]) ∧
    signup [] (fun s => s) (some "Jo") (some "a@b.c") (some "longpassword") 2
      = (Except.ok (201, Json.obj
          [("message", Json.str "Account created. Please verify your email."),
           ("userId", Json.num 2)]),
         [⟨2, "Jo", "a@b.c", none, some "longpassword", none, none, none,
           none, false, false⟩]) := by
  constructor
  · exact (C6_signup_duplicate_email
      [⟨1, "Jo", "a@b.c", none, some "H", none, none, none, none, true,
        false⟩] (fun s => s) (some "Jo") (some "a@b.c") (some "longpassword")
      2 (by decide) (by decide) (by decide)).1
      ⟨⟨1, "Jo", "a@b.c", none, some "H", none, none, none, none, true,
        false⟩, by decide, by decide⟩
  · exact (C6_signup_duplicate_email [] (fun s => s) (some "Jo")
      (some "a@b.c") (some "longpassword") 2 (by decide) (by decide)
      (by decide)).2 (by decide) (by decide)

/-- C7: login answers 401 invalid-credentials when the submitted password
does not match the stored hash, 403 email-not-verified when it matches
but the email is unverified, and returns an OK response only when the
password matches and the email is verified. -/
theorem C7_login_rejects (users : UserStore)
    (bc : String → String → Bool) (jwt : Nat → String)
    (email password : Option String) (user : UserRec) (h : String)
    (he : falsy email = false) (hp : falsy password = false)
    (hfind : users.find? (fun u => u.email == emailSetter (email.getD ""))
      = some user)
    (hpw : user.password = some h) :
    (bc (password.getD "") h = false →
      login users bc jwt email password
        = Except.error (appError "Invalid email or password" 401
            "invalid-credentials")) ∧
    (bc (password.getD "") h = true → user.isEmailVerified = false →
      login users bc jwt email password
        = Except.error (appError "Please verify your email before logging in"
            403 "email-not-verified")) ∧
    (∀ out, login users bc jwt email password = Except.ok out →
      bc (password.getD "") h = true ∧ user.isEmailVerified = true) := by
  have hgg : (user.googleId.isSome && user.password.isNone) = false := by
    simp [hpw]
  refine ⟨?_, ?_, ?_⟩
  · intro hbc
    simp [login, he, hp, hfind, hgg, hpw, hbc]
  · intro hbc hver
    simp [login, he, hp, hfind, hgg, hpw, hbc, hver]
  · intro out hout
    by_cases hbc : bc (password.getD "") h = true
    · by_cases hver : user.isEmailVerified = true
      · exact ⟨hbc, hver⟩
      · rw [Bool.not_eq_true] at hver
        simp [login, he, hp, hfind, hgg, hpw, hbc, hver] at hout
    · rw [Bool.not_eq_true] at hbc
      simp [login, he, hp, hfind, hgg, hpw, hbc] at hout

/-- Witness for C7: for an unverified user with stored hash HASH (and a
comparator accepting exactly "correct"), a wrong password yields 401 and
the right password yields 403. -/
theorem C7_witness :
    login [⟨1, "Jo", "a@b.c", none, some "HASH", none, none, none, none,
        false, false⟩] (fun c _ => c == "correct") (fun _ => "tok")
      (some "a@b.c") (some "wrong")
      = Except.error (appError "Invalid email or password" 401
          "invalid-credentials") ∧
    login [⟨1, "Jo", "a@b.c", none, some "HASH", none, none, none, none,
        false, false⟩] (fun c _ => c == "correct") (fun _ => "tok")
      (some "a@b.c") (some "correct")
      = Except.error (appError "Please verify your email before logging in"
          403 "email-not-verified") := by
  constructor
  · exact (C7_login_rejects
      [⟨1, "Jo", "a@b.c", none, some "HASH", none, none, none, none, false,
        false⟩] (fun c _ => c == "correct") (fun _ => "tok") (some "a@b.c")
      (some "wrong")
      ⟨1, "Jo", "a@b.c", none, some "HASH", none, none, none, none, false,
        false⟩ "HASH" (by decide) (by decide) (by decide) (by decide)).1
      (by decide)
  · exact (C7_login_rejects
      [⟨1, "Jo", "a@b.c", none, some "HASH", none, none, none, none, false,
        false⟩] (fun c _ => c == "correct") (fun _ => "tok") (some "a@b.c")
      (some "correct")
      ⟨1, "Jo", "a@b.c", none, some "HASH", none, none, none, none, false,
        false⟩ "HASH" (by decide) (by decide) (by decide) (by decide)).2.1
      (by decide) (by decide)

/-- `updateFirst` rewrites a record in place, never changing the number
of documents. -/
lemma updateFirst_length {α : Type} (p : α → Bool) (f : α → α)
    (l : List α) : (updateFirst p f l).length = l.length := by
  induction l with
  | nil => rfl
  | cons a t ih =>
      by_cases h : p a
      · simp [updateFirst, h]
      · simp [updateFirst, h, ih]

/-- C1 counterexample: with bot 1 existing and user 7 already actively
subscribed to it, repeating the subscribe operation does not succeed: it
throws 409 already-subscribed. -/
theorem C1_counterexample :
    (subscribeToBot [1] [⟨0, 7, 1, SubStatus.active, 0, none⟩] 7 (some 1) 5
      2).1
      = Except.error (appError "You are already subscribed to this bot" 409
          "already-subscribed") ∧
    (handle (subscribeToBot [1] [⟨0, 7, 1, SubStatus.active, 0, none⟩] 7
      (some 1) 5 2).1).1 = 409 :=
  ⟨rfl, rfl⟩

/-- C1 (amended): repeating subscribe never duplicates the subscription
state but it is not idempotent as an operation: with an existing active
subscription it fails with 409 and leaves the collection unchanged, and
with a cancelled one it reactivates that document in place (same number
of documents, no new record). -/
theorem C1_subscribe_repeat (bots : List Nat) (subs : SubStore)
    (userId b : Nat) (now : Time) (newId : Nat) (s : Subscription)
    (hbot : bots.contains b = true)
    (hfind : subs.find? (fun x => x.userId == userId && x.botId == b)
      = some s) :
    (s.status = SubStatus.active →
      subscribeToBot bots subs userId (some b) now newId
        = (Except.error (appError "You are already subscribed to this bot"
            409 "already-subscribed"), subs)) ∧
    (s.status = SubStatus.cancelled →
      subscribeToBot bots subs userId (some b) now newId
        = (Except.ok (200, Json.obj
            [("status", Json.str "success"),
             ("message", Json.str "Subscription reactivated successfully"),
             ("data", subscriptionJson
               { s with status := SubStatus.active, cancelledAt := none })]),
           updateFirst (fun t => t.id == s.id)
             (fun t => { t with status := SubStatus.active,
                                cancelledAt := none }) subs) ∧
      ((subscribeToBot bots subs userId (some b) now newId).2).length
        = subs.length) := by
  have hmem : b ∈ bots := by simpa using hbot
  constructor
  · intro hact
    simp [subscribeToBot, hmem, hfind, hact]
  · intro hcanc
    have hne : ¬s.status = SubStatus.active := by simp [hcanc]
    refine ⟨by simp [subscribeToBot, hmem, hfind, hne], ?_⟩
    have h2 : (subscribeToBot bots subs userId (some b) now newId).2
        = updateFirst (fun t => t.id == s.id)
            (fun t => { t with status := SubStatus.active,
                               cancelledAt := none }) subs := by
      simp [subscribeToBot, hmem, hfind, hne]
    rw [h2]
    exact updateFirst_length _ _ subs

/-- Witness for C1: user 7's active subscription to bot 1 makes a repeat
subscribe fail with the store unchanged; a cancelled subscription is
reactivated in place with the document count preserved. -/
theorem C1_witness :
    subscribeToBot [1] [⟨0, 7, 1, SubStatus.active, 0, none⟩] 7 (some 1) 5 2
      = (Except.error (appError "You are already subscribed to this bot" 409
          "already-subscribed"),
         [⟨0, 7, 1, SubStatus.active, 0, none⟩]) ∧
    subscribeToBot [1] [⟨0, 7, 1, SubStatus.cancelled, 0, some 3⟩] 7 (some 1)
        5 2
      = (Except.ok (200, Json.obj
          [("status", Json.str "success"),
           ("message", Json.str "Subscription reactivated successfully"),
           ("data", subscriptionJson ⟨0, 7, 1, SubStatus.active, 0, none⟩)]),
         updateFirst (fun t => t.id == 0)
           (fun t => { t with status := SubStatus.active,
                              cancelledAt := none })
           [⟨0, 7, 1, SubStatus.cancelled, 0, some 3⟩]) := by
  constructor
  · exact (C1_subscribe_repeat [1] [⟨0, 7, 1, SubStatus.active, 0, none⟩] 7 1
      5 2 ⟨0, 7, 1, SubStatus.active, 0, none⟩ (by decide) (by decide)).1
      rfl
  · exact ((C1_subscribe_repeat [1] [⟨0, 7, 1, SubStatus.cancelled, 0,
      some 3⟩] 7 1 5 2 ⟨0, 7, 1, SubStatus.cancelled, 0, some 3⟩ (by decide)
      (by decide)).2 rfl).1

/-- C10 counterexample: user 7's stored number is 911234567 and a phone
OTP for it was created 1 second ago, so re-submitting the same stored
number fails with 429 (cooldown), not with the claimed 400. -/
theorem C10_counterexample :
    (updatePhoneAndSendOTP
      [⟨7, "Jo", "a@b.c", some "911234567", none, none, none, none, none,
        false, true⟩]
      [⟨0, none, some "911234567", "654321", OtpType.phone, 300000, 0⟩]
      7 (some "911234567") "123456" 1000 5).1
      = Except.error (appError "Please wait before requesting another OTP"
          429) ∧
    (handle (updatePhoneAndSendOTP
      [⟨7, "Jo", "a@b.c", some "911234567", none, none, none, none, none,
        false, true⟩]
      [⟨0, none, some "911234567", "654321", OtpType.phone, 300000, 0⟩]
      7 (some "911234567") "123456" 1000 5).1).1 = 429 :=
  ⟨rfl, rfl⟩

/-- C10 (amended): provided no phone OTP for the submitted number was
created within the last 60 seconds (the cooldown check runs first and
answers 429 otherwise), submitting the stored number fails with 400
"Phone number is already verified" regardless of isPhoneVerified and
creates no OTP; an OK response is only possible for a number different
from the stored one, and a different, schema-valid, unclaimed number
updates the user (resetting isPhoneVerified) and issues an OTP. -/
theorem C10_updatePhone_same_number (users : UserStore) (otps : OtpStore)
    (userId : Nat) (pn : String) (genOtp : String) (now : Time)
    (newOtpId : Nat) (user : UserRec) (hpn : pn ≠ "")
    (hfind : users.find? (fun u => u.id == userId) = some user)
    (hcool : ∀ r ∈ otps, ¬(r.type = OtpType.phone ∧ r.phone = some pn ∧
      now - 60 * 1000 < r.createdAt)) :
    (user.phoneNumber = some pn →
      updatePhoneAndSendOTP users otps userId (some pn) genOtp now newOtpId
        = (Except.error (appError "Phone number is already verified" 400),
           users, otps)) ∧
    (∀ out, (updatePhoneAndSendOTP users otps userId (some pn) genOtp now
        newOtpId).1 = Except.ok out → user.phoneNumber ≠ some pn) ∧
    (user.phoneNumber ≠ some pn →
      phoneRegexMatch (strTrim pn) = true →
      (∀ v ∈ users, v.id ≠ userId → v.phoneNumber ≠ some (strTrim pn)) →
      updatePhoneAndSendOTP users otps userId (some pn) genOtp now newOtpId
        = (Except.ok (200, Json.obj
            [("message", Json.str "OTP sent successfully"),
             ("otp", Json.str genOtp)]),
           updateFirst (fun u => u.id == userId)
             (fun u => { u with phoneNumber := some (strTrim pn),
                                isPhoneVerified := false }) users,
           createOTP otps pn OtpType.phone genOtp now newOtpId)) := by
  have hfalsy : falsy (some pn) = false := by simp [falsy, hpn]
  have hcb : checkOTPCooldown otps pn OtpType.phone now = false := by
    rw [Bool.eq_false_iff]
    intro h
    rcases (checkOTPCooldown_iff otps pn OtpType.phone now).1 h
      with ⟨r, hr, h1, h2, h3⟩
    exact hcool r hr ⟨h1, (subjectMatches_phone_iff r pn).1 h2, h3⟩
  refine ⟨?_, ?_, ?_⟩
  · intro hsame
    simp [updatePhoneAndSendOTP, hfalsy, hfind, hcb, hsame]
  · intro out hout
    intro hsame
    simp [updatePhoneAndSendOTP, hfalsy, hfind, hcb, hsame] at hout
  · intro hdiff hvalid hfree
    have hdup : users.find? (fun v =>
        v.id ≠ userId && v.phoneNumber == some (strTrim pn)) = none := by
      rw [List.find?_eq_none]
      intro v hv hb
      simp only [Bool.and_eq_true, decide_eq_true_eq, beq_iff_eq] at hb
      exact hfree v hv hb.1 hb.2
    simp [updatePhoneAndSendOTP, hfalsy, hfind, hcb, hdiff, hvalid, hdup]
    exact hfree

/-- Witness for C10: outside the cooldown window, re-submitting the
stored number 911234567 yields the 400 already-verified error with no
OTP created, and submitting the new number 911234568 updates the user
and creates an OTP. -/
theorem C10_witness :
    updatePhoneAndSendOTP
      [⟨7, "Jo", "a@b.c", some "911234567", none, none, none, none, none,
        false, true⟩] [] 7 (some "911234567") "123456" 1000 5
      = (Except.error (appError "Phone number is already verified" 400),
         [⟨7, "Jo", "a@b.c", some "911234567", none, none, none, none, none,
           false, true⟩], []) ∧
    updatePhoneAndSendOTP
      [⟨7, "Jo", "a@b.c", some "911234567", none, none, none, none, none,
        false, true⟩] [] 7 (some "911234568") "123456" 1000 5
      = (Except.ok (200, Json.obj
          [("message", Json.str "OTP sent successfully"),
           ("otp", Json.str "123456")]),
         updateFirst (fun u => u.id == 7)
           (fun u => { u with phoneNumber := some (strTrim "911234568"),
                              isPhoneVerified := false })
           [⟨7, "Jo", "a@b.c", some "911234567", none, none, none, none,
             none, false, true⟩],
         createOTP [] "911234568" OtpType.phone "123456" 1000 5) := by
  constructor
  · exact (C10_updatePhone_same_number
      [⟨7, "Jo", "a@b.c", some "911234567", none, none, none, none, none,
        false, true⟩] [] 7 "911234567" "123456" 1000 5
      ⟨7, "Jo", "a@b.c", some "911234567", none, none, none, none, none,
        false, true⟩ (by decide) (by decide) (by decide)).1 (by decide)
  · exact (C10_updatePhone_same_number
      [⟨7, "Jo", "a@b.c", some "911234567", none, none, none, none, none,
        false, true⟩] [] 7 "911234568" "123456" 1000 5
      ⟨7, "Jo", "a@b.c", some "911234567", none, none, none, none, none,
        false, true⟩ (by decide) (by decide) (by decide)).2.2 (by decide)
      (by decide) (by decide)

/-- A successful `find?` splits the list into an unmatched prefix, the
found record and a suffix. -/
lemma find?_decomp {α : Type} (p : α → Bool) (u : α) :
    ∀ l : List α, l.find? p = some u →
      ∃ l1 l2, l = l1 ++ u :: l2 ∧ (∀ y ∈ l1, p y = false) ∧ p u = true := by
  intro l
  induction l with
  | nil => intro h; simp at h
  | cons a t ih =>
      intro h
      by_cases hpa : p a = true
      · rw [List.find?_cons_of_pos _ hpa] at h
        cases h
        exact ⟨[], t, rfl, by simp, hpa⟩
      · rw [List.find?_cons_of_neg _ (by simpa using hpa)] at h
        rcases ih h with ⟨l1, l2, rfl, h1, h2⟩
        refine ⟨a :: l1, l2, rfl, ?_, h2⟩
        intro y hy
        rcases List.mem_cons.1 hy with rfl | hy
        · exact Bool.eq_false_iff.2 hpa
        · exact h1 y hy

/-- `updateFirst` on a list split at the first match rewrites exactly the
matched record. -/
lemma updateFirst_decomp {α : Type} (p : α → Bool) (f : α → α)
    (l1 : List α) (l2 : List α) (u : α)
    (h1 : ∀ y ∈ l1, p y = false) (hu : p u = true) :
    updateFirst p f (l1 ++ u :: l2) = l1 ++ f u :: l2 := by
  induction l1 with
  | nil => simp [updateFirst, hu]
  | cons a t ih =>
      have hpa : p a = false := h1 a (List.mem_cons_self a t)
      simp only [List.cons_append, updateFirst, hpa, Bool.false_eq_true,
        if_false, List.cons.injEq, true_and]
      exact ih (fun y hy => h1 y (List.mem_cons_of_mem a hy))

/-- Unfolding of the reset-token lookup filter. -/
lemma resetTokenMatch_iff (hashed : String) (now : Time) (v : UserRec) :
    resetTokenMatch hashed now v = true ↔
      v.resetPasswordToken = some hashed ∧
        ∃ e, v.resetPasswordExpires = some e ∧ now < e := by
  cases hE : v.resetPasswordExpires with
  | none => simp [resetTokenMatch, hE]
  | some e => simp [resetTokenMatch, hE]

/-- A user matching the reset filter at a later time also matches at any
earlier time. -/
lemma resetTokenMatch_mono (hashed : String) (now now' : Time)
    (hle : now ≤ now') (v : UserRec)
    (h : resetTokenMatch hashed now' v = true) :
    resetTokenMatch hashed now v = true := by
  rw [resetTokenMatch_iff] at h ⊢
  rcases h with ⟨h1, e, h2, h3⟩
  exact ⟨h1, e, h2, lt_of_le_of_lt hle h3⟩

/-- With well-formed inputs, `resetPassword` on a store without a live
matching token answers invalid-reset-token and changes nothing. -/
lemma resetPassword_none (us : UserStore) (sha256 bh : String → String)
    (tok np : String) (now : Time) (htok : tok ≠ "") (hnp : np ≠ "")
    (hnl : ¬(np.length < 8))
    (hnone : us.find? (resetTokenMatch (sha256 tok) now) = none) :
    resetPassword us sha256 bh (some tok) (some np) (some np) now
      = (Except.error (appError "Invalid or expired reset token" 400
          "invalid-reset-token"), us) := by
  simp [resetPassword, falsy, htok, hnp, hnl, hnone]

/-- With well-formed inputs, `resetPassword` on a store holding a live
matching token succeeds and clears that user's reset fields. -/
lemma resetPassword_some (us : UserStore) (sha256 bh : String → String)
    (tok np : String) (now : Time) (u : UserRec) (htok : tok ≠ "")
    (hnp : np ≠ "") (hnl : ¬(np.length < 8))
    (hfind : us.find? (resetTokenMatch (sha256 tok) now) = some u) :
    resetPassword us sha256 bh (some tok) (some np) (some np) now
      = (Except.ok (200, Json.obj
          [("message", Json.str "Password has been reset successfully")]),
         updateFirst (resetTokenMatch (sha256 tok) now) (applyReset bh np)
           us) := by
  simp [resetPassword, falsy, htok, hnp, hnl, hfind]

/-- `validateResetToken` on a store without a live matching token answers
invalid-reset-token. -/
lemma validateResetToken_none (us : UserStore) (sha256 : String → String)
    (tok : String) (now : Time) (htok : tok ≠ "")
    (hnone : us.find? (resetTokenMatch (sha256 tok) now) = none) :
    validateResetToken us sha256 (some tok) now
      = Except.error (appError "Invalid or expired reset token" 400
          "invalid-reset-token") := by
  simp [validateResetToken, falsy, htok, hnone]

/-- `forgotPassword` for an existing user stores the hashed token and the
30-minute expiry on that user. -/
lemma forgotPassword_some (us : UserStore) (sha256 : String → String)
    (em tok : String) (t0 : Time) (u0 : UserRec) (hem : em ≠ "")
    (hfind : us.find? (fun v => v.email == emailSetter em) = some u0) :
    (forgotPassword us sha256 (some em) tok t0).2
      = updateFirst (fun v => v.email == emailSetter em)
          (setResetFields (sha256 tok) t0) us := by
  simp [forgotPassword, falsy, hem, hfind]

/-- C3: the password-reset token is single-use and time-bounded:
resetPassword succeeds only when some user's stored hashed token matches
with an unexpired resetPasswordExpires; on success both reset fields are
cleared, so a second resetPassword or validateResetToken with the same
token fails with the invalid-reset-token error; and after the 30-minute
expiry window set by forgotPassword the token fails likewise. -/
theorem C3_reset_token_single_use (users : UserStore)
    (sha256 bh : String → String) (tok np em : String)
    (now now' t0 t : Time) (u0 : UserRec)
    (htok : tok ≠ "") (hnp : np ≠ "") (hlen : 8 ≤ np.length)
    (hem : em ≠ "") :
    (∀ out, (resetPassword users sha256 bh (some tok) (some np) (some np)
        now).1 = Except.ok out →
      ∃ u ∈ users, u.resetPasswordToken = some (sha256 tok) ∧
        ∃ e, u.resetPasswordExpires = some e ∧ now < e) ∧
    (∀ u, users.find? (resetTokenMatch (sha256 tok) now) = some u →
      (∀ v ∈ users, v.resetPasswordToken = some (sha256 tok) → v = u) →
      (users.map UserRec.id).Nodup → now ≤ now' →
      (resetPassword (resetPassword users sha256 bh (some tok) (some np)
          (some np) now).2 sha256 bh (some tok) (some np) (some np) now').1
        = Except.error (appError "Invalid or expired reset token" 400
            "invalid-reset-token") ∧
      validateResetToken (resetPassword users sha256 bh (some tok) (some np)
          (some np) now).2 sha256 (some tok) now'
        = Except.error (appError "Invalid or expired reset token" 400
            "invalid-reset-token")) ∧
    (users.find? (fun v => v.email == emailSetter em) = some u0 →
      (∀ v ∈ users, v.resetPasswordToken ≠ some (sha256 tok)) →
      t0 + 30 * 60 * 1000 ≤ t →
      (resetPassword (forgotPassword users sha256 (some em) tok t0).2 sha256
          bh (some tok) (some np) (some np) t).1
        = Except.error (appError "Invalid or expired reset token" 400
            "invalid-reset-token")) := by
  have hnl : ¬(np.length < 8) := by omega
  refine ⟨?_, ?_, ?_⟩
  · intro out hout
    cases hf : users.find? (resetTokenMatch (sha256 tok) now) with
    | none => rw [resetPassword_none users sha256 bh tok np now htok hnp hnl
        hf] at hout; simp at hout
    | some u =>
        exact ⟨u, List.mem_of_find?_eq_some hf,
          (resetTokenMatch_iff (sha256 tok) now u).1 (List.find?_some hf)⟩
  · intro u hfind huniq hids hnow
    rcases find?_decomp (resetTokenMatch (sha256 tok) now) u users hfind
      with ⟨l1, l2, hdec, h1, h2⟩
    have hlist : (resetPassword users sha256 bh (some tok) (some np)
        (some np) now).2 = l1 ++ applyReset bh np u :: l2 := by
      rw [resetPassword_some users sha256 bh tok np now u htok hnp hnl hfind]
      show updateFirst (resetTokenMatch (sha256 tok) now) (applyReset bh np)
        users = _
      rw [hdec]
      exact updateFirst_decomp _ _ l1 l2 u h1 h2
    have hnone2 : (l1 ++ applyReset bh np u :: l2).find?
        (resetTokenMatch (sha256 tok) now') = none := by
      rw [List.find?_eq_none]
      intro x hx hmatch'
      have hmatch := resetTokenMatch_mono (sha256 tok) now now' hnow x hmatch'
      rcases List.mem_append.1 hx with hx1 | hx2
      · exact absurd hmatch (by simp [h1 x hx1])
      · rcases List.mem_cons.1 hx2 with rfl | hx3
        · have := ((resetTokenMatch_iff (sha256 tok) now' _).1 hmatch').1
          simp [applyReset] at this
        · have hxin : x ∈ users := by
            rw [hdec]
            exact List.mem_append_right l1 (List.mem_cons_of_mem _ hx3)
          have hxtok : x.resetPasswordToken = some (sha256 tok) :=
            ((resetTokenMatch_iff (sha256 tok) now x).1 hmatch).1
          have hxu : x = u := huniq x hxin hxtok
          subst hxu
          rw [hdec] at hids
          have hnd : (x.id :: l2.map UserRec.id).Nodup := by
            rw [List.map_append, List.map_cons] at hids
            exact hids.of_append_right
          exact (List.nodup_cons.1 hnd).1 (List.mem_map_of_mem _ hx3)
    constructor
    · rw [hlist, resetPassword_none _ sha256 bh tok np now' htok hnp hnl
        hnone2]
    · rw [hlist, validateResetToken_none _ sha256 tok now' htok hnone2]
  · intro hfind0 hothers ht
    rcases find?_decomp (fun v => v.email == emailSetter em) u0 users hfind0
      with ⟨l1, l2, hdec, h1, h2⟩
    have hlist : (forgotPassword users sha256 (some em) tok t0).2
        = l1 ++ setResetFields (sha256 tok) t0 u0 :: l2 := by
      rw [forgotPassword_some users sha256 em tok t0 u0 hem hfind0, hdec]
      exact updateFirst_decomp _ _ l1 l2 u0 h1 h2
    have hnone : (l1 ++ setResetFields (sha256 tok) t0 u0 :: l2).find?
        (resetTokenMatch (sha256 tok) t) = none := by
      rw [List.find?_eq_none]
      intro x hx hmatch
      rcases List.mem_append.1 hx with hx1 | hx2
      · have hxin : x ∈ users := by
          rw [hdec]; exact List.mem_append_left _ hx1
        exact hothers x hxin
          ((resetTokenMatch_iff (sha256 tok) t x).1 hmatch).1
      · rcases List.mem_cons.1 hx2 with rfl | hx3
        · rcases ((resetTokenMatch_iff (sha256 tok) t _).1 hmatch).2
            with ⟨e, he, hlt⟩
          simp [setResetFields] at he
          linarith
        · have hxin : x ∈ users := by
            rw [hdec]
            exact List.mem_append_right l1 (List.mem_cons_of_mem _ hx3)
          exact hothers x hxin
            ((resetTokenMatch_iff (sha256 tok) t x).1 hmatch).1
    rw [hlist, resetPassword_none _ sha256 bh tok np t htok hnp hnl hnone]

/-- Witness for C3: after a successful reset with token T (hash modelled
as appending a hash mark) at t=500, both a second reset and a token
validation at t=600 fail with invalid-reset-token; and a reset attempted
exactly at the 30-minute expiry set by forgotPassword fails likewise. -/
theorem C3_witness :
    (resetPassword (resetPassword
        [⟨1, "Jo", "a@b.c", none, some "H", none, none, some "T#",
          some 1000, true, false⟩]
        (fun s => String.append s "#") (fun s => s) (some "T")
        (some "password1") (some "password1") 500).2
      (fun s => String.append s "#") (fun s => s) (some "T")
      (some "password1") (some "password1") 600).1
      = Except.error (appError "Invalid or expired reset token" 400
          "invalid-reset-token") ∧
    validateResetToken (resetPassword
        [⟨1, "Jo", "a@b.c", none, some "H", none, none, some "T#",
          some 1000, true, false⟩]
        (fun s => String.append s "#") (fun s => s) (some "T")
        (some "password1") (some "password1") 500).2
      (fun s => String.append s "#") (some "T") 600
      = Except.error (appError "Invalid or expired reset token" 400
          "invalid-reset-token") ∧
    (resetPassword (forgotPassword
        [⟨2, "Jo", "a@b.c", none, some "H", none, none, none, none, true,
          false⟩]
        (fun s => String.append s "#") (some "a@b.c") "T" 0).2
      (fun s => String.append s "#") (fun s => s) (some "T")
      (some "password1") (some "password1") 1800000).1
      = Except.error (appError "Invalid or expired reset token" 400
          "invalid-reset-token") := by
  have h1 := C3_reset_token_single_use
    [⟨1, "Jo", "a@b.c", none, some "H", none, none, some "T#", some 1000,
      true, false⟩]
    (fun s => String.append s "#") (fun s => s) "T" "password1" "a@b.c"
    500 600 0 0
    ⟨1, "Jo", "a@b.c", none, some "H", none, none, some "T#", some 1000,
      true, false⟩
    (by decide) (by decide) (by decide) (by decide)
  have h2 := C3_reset_token_single_use
    [⟨2, "Jo", "a@b.c", none, some "H", none, none, none, none, true,
      false⟩]
    (fun s => String.append s "#") (fun s => s) "T" "password1" "a@b.c"
    0 0 0 1800000
    ⟨2, "Jo", "a@b.c", none, some "H", none, none, none, none, true,
      false⟩
    (by decide) (by decide) (by decide) (by decide)
  have hb := h1.2.1
    ⟨1, "Jo", "a@b.c", none, some "H", none, none, some "T#", some 1000,
      true, false⟩
    (by decide) (by decide) (by decide) (by decide)
  exact ⟨hb.1, hb.2, h2.2.2 (by decide) (by decide) (by decide)⟩

/-- C5: evaluating the code at concrete requests shows the envelope claim
failing on both counts: a login with missing credentials produces a 400
body whose status is "fail" but which carries no code field at all (the
2-parameter AppError constructor drops the code every controller
passes), and a successful signup produces a 201 body with no status
field. -/
theorem C5_envelope_missing_code :
    (handle (login [] (fun _ _ => false) (fun _ => "") none none)).1
      = 400 ∧
    ((handle (login [] (fun _ _ => false) (fun _ => "") none none)).2
      ).getField "status" = some (Json.str "fail") ∧
    ((handle (login [] (fun _ _ => false) (fun _ => "") none none)).2
      ).getField "code" = none ∧
    (handle (signup [] (fun s => s) (some "Jo") (some "a@b.c")
      (some "longpassword") 1).1).1 = 201 ∧
    ((handle (signup [] (fun s => s) (some "Jo") (some "a@b.c")
      (some "longpassword") 1).1).2).getField "status" = none :=
  ⟨rfl, rfl, rfl, rfl, rfl⟩

end Zyro
